import Mathlib

/-!
Shallow embedding of the platform-activity probe layer of
openrecall-for-macs-on-intel (src/openrecall_for_macs_on_intel/utils.py).

Modelling conventions:
* Python strings are Lean `String`s; line- and token-level processing is done
  on `List Char` so that every helper is structurally recursive and
  kernel-reducible.
* A Python callable that may raise is modelled as an `Except Unit`-valued (or
  `Option`-valued) input behaviour; a `try/except` block in the source appears
  as a `match` on that behaviour.  A function with no handler propagates the
  failure in its own result type (`Option`): `none` models an uncaught
  exception escaping to the caller.
* Optional native bindings (set to `None` on ImportError in the source) are
  modelled as `Bool`/`Option` availability parameters.
* Python `timedelta` normalisation uses floor division and a non-negative
  remainder, modelled with `Int.ediv`/`Int.emod` (which agree with Python
  floor division and modulus for the positive divisors used here).  The
  microsecond component of a timedelta is ignored because the source reads
  only the `.days` and `.seconds` fields.
* The float expression `idle_time / 1_000_000_000 < 5.0` is modelled with
  exact rational arithmetic.  Python evaluates `int / int` as a correctly
  rounded IEEE double division; since every exact quotient n/10^9 with
  n ≠ 5·10^9 differs from 5 by at least 10^-9, far more than one ulp at 5,
  the rounded comparison against 5.0 coincides with the exact rational
  comparison for all inputs below the float overflow range.
-/

/-- Splits a character list on a separator character, keeping empty pieces,
modelling Python str.split with a single-character separator (and, for the
newline separator, str.splitlines restricted to the LF line boundary). -/
def splitOn (sep : Char) : List Char → List (List Char)
  | [] => [[]]
  | c :: cs =>
    let r := splitOn sep cs
    if c = sep then [] :: r
    else
      match r with
      | [] => [[c]]
      | g :: gs => (c :: g) :: gs

/-- output.splitlines() from is_user_active_osx, modelled as splitting the
decoded output on the LF character. -/
def splitlines (s : String) : List (List Char) :=
  splitOn (Char.ofNat 10) s.toList

/-- Whether the first list is an initial segment of the second. -/
def headMatches : List Char → List Char → Bool
  | [], _ => true
  | _ :: _, [] => false
  | n :: ns, h :: hs => n = h && headMatches ns hs

/-- Whether the first list occurs contiguously inside the second, modelling the
Python substring test (needle in line). -/
def containsChars (needle : List Char) : List Char → Bool
  | [] => headMatches needle []
  | h :: hs => headMatches needle (h :: hs) || containsChars needle hs

/-- Drops leading characters satisfying Char.isWhitespace, modelling the
leading half of Python str.strip (restricted to ASCII whitespace, the only
kind appearing in ioreg output). -/
def dropWS : List Char → List Char
  | [] => []
  | c :: cs => if c.isWhitespace then dropWS cs else c :: cs

/-- line.strip() from is_user_active_osx: removes leading and trailing
whitespace. -/
def stripChars (cs : List Char) : List Char :=
  ((dropWS ((dropWS cs).reverse)).reverse)

/-- line.split("=")[-1] from is_user_active_osx: the last piece of the split
on the equals sign (the whole line when no equals sign occurs, since Python
split then returns the one-element list holding the line). -/
def lastSplitEq (cs : List Char) : List Char :=
  (splitOn (Char.ofNat 61) cs).getLastD []

/-- Decimal digit accumulation for Python int(str) parsing: after a first
digit, a single underscore may separate consecutive digits. -/
def pyDigits (acc : Nat) : List Char → Option Nat
  | [] => some acc
  | c :: cs =>
    if c = Char.ofNat 95 then
      match cs with
      | [] => none
      | d :: ds => if d.isDigit then pyDigits (acc * 10 + (d.toNat - 48)) ds else none
    else if c.isDigit then pyDigits (acc * 10 + (c.toNat - 48)) cs
    else none

/-- Python int(s) on an already-stripped string: optional sign followed by
digits (with optional single underscores between digits); none models the
ValueError raised on any other shape. -/
def parsePyInt (cs : List Char) : Option Int :=
  match cs with
  | [] => none
  | c :: rest =>
    if c = Char.ofNat 45 then
      match rest with
      | [] => none
      | d :: ds => if d.isDigit then (pyDigits (d.toNat - 48) ds).map (fun n => -(n : Int)) else none
    else if c = Char.ofNat 43 then
      match rest with
      | [] => none
      | d :: ds => if d.isDigit then (pyDigits (d.toNat - 48) ds).map (fun n => (n : Int)) else none
    else if c.isDigit then (pyDigits (c.toNat - 48) rest).map (fun n => (n : Int))
    else none

/-- The needle "HIDIdleTime" searched for in each output line. -/
def hidNeedle : List Char := "HIDIdleTime".toList

/-- The loop of is_user_active_osx: the first line of the output containing
"HIDIdleTime" (the source returns from inside the loop on that line, so later
lines are never examined). -/
def firstHIDLine : List (List Char) → Option (List Char)
  | [] => none
  | l :: ls => if containsChars hidNeedle l then some l else firstHIDLine ls

/-- Outcome of the subprocess.check_output call on the ioreg command:
the decoded output, or one of the exception classes the source handles. -/
inductive CmdResult where
  | ok : String → CmdResult
  | timeout : CmdResult
  | calledProcessError : CmdResult
  | otherError : CmdResult
deriving DecidableEq

/-- The threshold comparison idle_seconds = idle_time / 1_000_000_000;
idle_seconds < 5.0, in exact rational arithmetic (see the module comment for
why this agrees with the IEEE double evaluation). -/
def idleVerdict (idle_time : Int) : Bool :=
  decide ((idle_time : ℚ) / 1000000000 < 5)

/-- is_user_active_osx from utils.py.  The first parameter models whether the
subprocess module imported; the second the outcome of the ioreg call.  Every
handled exception (timeout, non-zero exit, and any other error, including the
ValueError from int() on an unparsable field) yields true, as does an output
with no "HIDIdleTime" line. -/
def is_user_active_osx (subprocessAvail : Bool) (r : CmdResult) : Bool :=
  if subprocessAvail = false then true
  else
    match r with
    | CmdResult.timeout => true
    | CmdResult.calledProcessError => true
    | CmdResult.otherError => true
    | CmdResult.ok output =>
      match firstHIDLine (splitlines output) with
      | none => true
      | some line =>
        match parsePyInt (stripChars (lastSplitEq line)) with
        | none => true
        | some idle_time => idleVerdict idle_time

/-- The idle value extracted from an ioreg output along the successful path of
is_user_active_osx: first "HIDIdleTime" line, last =-piece, stripped, parsed. -/
def parsedIdle (output : String) : Option Int :=
  (firstHIDLine (splitlines output)).bind
    (fun line => parsePyInt (stripChars (lastSplitEq line)))

/-- get_active_app_name_osx from utils.py.  The parameter models the NSWorkspace
binding and the behaviour of the sharedWorkspace().activeApplication() lookup:
none means the binding failed to import (NSWorkspace is None); some (.error ())
means the lookup raised (caught by the bare except); some (.ok r) means the
lookup returned a record whose NSApplicationName field is r (absent when r is
none, in which case .get supplies the "" default). -/
def get_active_app_name_osx (nsw : Option (Except Unit (Option String))) : String :=
  match nsw with
  | none => ""
  | some (Except.error _) => ""
  | some (Except.ok r) => r.getD ""

/-- One entry of the CGWindowListCopyWindowInfo result: the three dictionary
fields the source reads.  A none field models an absent dictionary key. -/
structure WindowInfo where
  ownerName : Option String
  layer : Option Int
  name : Option String
deriving DecidableEq

/-- The window loop of get_active_window_title_osx: scans front-to-back,
returning the first non-empty kCGWindowName of a window whose kCGWindowOwnerName
equals the active app name and whose kCGWindowLayer is 0 and which carries a
kCGWindowName key; otherwise the empty-string fallback after the loop. -/
def scanWindows (app_name : String) : List WindowInfo → String
  | [] => ""
  | w :: ws =>
    if w.ownerName = some app_name then
      if w.layer = some 0 ∧ w.name.isSome then
        let title := w.name.getD ""
        if title ≠ "" then title else scanWindows app_name ws
      else scanWindows app_name ws
    else scanWindows app_name ws

/-- get_active_window_title_osx from utils.py.  quartz models whether the three
Quartz bindings imported (all are set to None together on ImportError); nsw is
passed through to get_active_app_name_osx; windows is the on-screen window list
returned by CGWindowListCopyWindowInfo, ordered front-to-back. -/
def get_active_window_title_osx (quartz : Bool)
    (nsw : Option (Except Unit (Option String))) (windows : List WindowInfo) : String :=
  if quartz = false then ""
  else
    let app_name := get_active_app_name_osx nsw
    if app_name = "" then ""
    else scanWindows app_name windows

/-- Specification-side predicate for C1: the window is owned by the focused
app, sits on layer 0, and carries a present, non-empty title. -/
def window_matches (app : String) (w : WindowInfo) : Bool :=
  w.ownerName = some app ∧ w.layer = some 0 ∧ (w.name.getD "") ≠ ""

/-- Specification-side description for C1: the title of the first matching
window in front-to-back order, or the empty string when none matches. -/
def firstGoodTitle (app : String) (ws : List WindowInfo) : String :=
  match ws.find? (window_matches app) with
  | some w => w.name.getD ""
  | none => ""

/-- Smallest timestamp datetime.fromtimestamp can convert
(0001-01-01 00:00:00, modelling local time as UTC). -/
def min_timestamp : Int := -62135596800

/-- Largest timestamp datetime.fromtimestamp can convert
(9999-12-31 23:59:59, modelling local time as UTC). -/
def max_timestamp : Int := 253402300799

/-- Whether datetime.fromtimestamp(ts) succeeds.  CPython raises OverflowError,
OSError or ValueError when the timestamp falls outside the representable
datetime range of years 1 to 9999 (e.g. fromtimestamp(2 ** 62) raises). -/
def fromtimestamp_ok (ts : Int) : Bool :=
  decide (min_timestamp ≤ ts) && decide (ts ≤ max_timestamp)

/-- The branch logic of human_readable_time on the normalised timedelta
diff = now - dt_object.  Python timedelta normalisation stores
days = floor(total / 86400) (which is negative for a future instant) and
seconds = total mod 86400 in [0, 86400); on Int, / and % are Int.ediv and
Int.emod, which coincide with Python floor division and modulus for the
positive divisors used here. -/
def describe_diff (diff : Int) : String :=
  let days := diff / 86400
  let seconds := diff % 86400
  if 0 < days then toString days ++ " days ago"
  else if seconds < 60 then toString seconds ++ " seconds ago"
  else if seconds < 3600 then toString (seconds / 60) ++ " minutes ago"
  else toString (seconds / 3600) ++ " hours ago"

/-- human_readable_time from utils.py, over the timestamps (in seconds) of the
current wall-clock time and of the argument.  The body calls
datetime.fromtimestamp with no exception handler, so a conversion failure
propagates to the caller, modelled as none. -/
def human_readable_time (now ts : Int) : Option String :=
  if fromtimestamp_ok ts then some (describe_diff (now - ts)) else none

/-- Civil date from days since the Unix epoch (proleptic Gregorian calendar),
giving (year, month, day); used to model strftime on a local time of UTC. -/
def civilFromDays (z0 : Int) : Int × Int × Int :=
  let z := z0 + 719468
  let era := z / 146097
  let doe := z - era * 146097
  let yoe := (doe - doe / 1460 + doe / 36524 - doe / 146096) / 365
  let y := yoe + era * 400
  let doy := doe - (365 * yoe + yoe / 4 - yoe / 100)
  let mp := (5 * doy + 2) / 153
  let d := doy - (153 * mp + 2) / 5 + 1
  let m := if mp < 10 then mp + 3 else mp - 9
  (if m ≤ 2 then y + 1 else y, m, d)

/-- Zero-pads a non-negative integer to two digits. -/
def pad2 (n : Int) : String :=
  if n < 10 then "0" ++ toString n else toString n

/-- Zero-pads a non-negative integer to four digits (the %Y field). -/
def pad4 (n : Int) : String :=
  if n < 10 then "000" ++ toString n
  else if n < 100 then "00" ++ toString n
  else if n < 1000 then "0" ++ toString n
  else toString n

/-- dt_object.strftime of the source format string: year-month-day
hour:minute:second, each field zero-padded (local time modelled as UTC). -/
def strftime_ymd_hms (ts : Int) : String :=
  let days := ts / 86400
  let sod := ts % 86400
  let c := civilFromDays days
  pad4 c.1 ++ "-" ++ pad2 c.2.1 ++ "-" ++ pad2 c.2.2 ++ " " ++
    pad2 (sod / 3600) ++ ":" ++ pad2 (sod / 60 % 60) ++ ":" ++ pad2 (sod % 60)

/-- timestamp_to_human_readable from utils.py: the same fromtimestamp
conversion, but wrapped in a bare try/except returning the empty string on any
failure. -/
def timestamp_to_human_readable (ts : Int) : String :=
  if fromtimestamp_ok ts then strftime_ymd_hms ts else ""

/-- Result of a dispatch-layer call: a returned value, or a raised
NotImplementedError carrying its message. -/
inductive DispatchResult (α : Type) where
  | ok : α → DispatchResult α
  | notImplemented : String → DispatchResult α
deriving DecidableEq

/-- get_active_app_name from utils.py: dispatches on sys.platform, forwarding
to the macOS variant (whose result the second parameter supplies) on darwin and
raising NotImplementedError otherwise.  The quote marks the source places
around the platform name in the message are elided. -/
def get_active_app_name (platform : String) (osxResult : String) : DispatchResult String :=
  if platform = "darwin" then DispatchResult.ok osxResult
  else DispatchResult.notImplemented
    ("Platform " ++ platform ++ " not supported yet for get_active_app_name")

/-- get_active_window_title from utils.py: same dispatch shape; on a
non-darwin platform it prints a warning and then raises NotImplementedError. -/
def get_active_window_title (platform : String) (osxResult : String) : DispatchResult String :=
  if platform = "darwin" then DispatchResult.ok osxResult
  else DispatchResult.notImplemented
    ("Platform " ++ platform ++ " not supported yet for get_active_window_title")

/-- is_user_active from utils.py: same dispatch shape; on a non-darwin
platform it prints a warning and then raises NotImplementedError. -/
def is_user_active (platform : String) (osxResult : Bool) : DispatchResult Bool :=
  if platform = "darwin" then DispatchResult.ok osxResult
  else DispatchResult.notImplemented
    ("Platform " ++ platform ++ " not supported yet for is_user_active")

/-- The window loop computes the title of the first window satisfying the
selection predicate, front-to-back. -/
theorem scanWindows_eq_firstGoodTitle (app : String) (ws : List WindowInfo) :
    scanWindows app ws = firstGoodTitle app ws := by
  induction ws with
  | nil => rfl
  | cons w ws ih =>
    rcases w with ⟨o, l, n⟩
    rcases n with _ | t
    · simp only [scanWindows, firstGoodTitle, List.find?_cons, window_matches]
      by_cases h1 : o = some app <;>
        simp [h1, ih, firstGoodTitle, window_matches, Option.getD]
    · by_cases h1 : o = some app
      · by_cases h2 : l = some 0
        · by_cases h3 : t = ""
          · simp [scanWindows, firstGoodTitle, List.find?_cons, window_matches,
              h1, h2, h3, ih]
          · simp [scanWindows, firstGoodTitle, List.find?_cons, window_matches,
              h1, h2, h3]
        · simp [scanWindows, firstGoodTitle, List.find?_cons, window_matches,
            h1, h2, ih]
      · simp [scanWindows, firstGoodTitle, List.find?_cons, window_matches, h1, ih]

/-- Claim C1: on macOS, get_active_window_title_osx returns the empty string
without consulting the window list whenever the active app name is empty
(the result is "" for every window list), and otherwise returns the title of
the first window in front-to-back order owned by the active app, on layer 0,
with a present non-empty title — empty-titled layer-0 matches are skipped and
the scan continues — or the empty string when no window qualifies. -/
theorem c1_window_title_algorithm (nsw : Option (Except Unit (Option String)))
    (ws : List WindowInfo) :
    (get_active_app_name_osx nsw = "" → get_active_window_title_osx true nsw ws = "")
    ∧ (get_active_app_name_osx nsw ≠ "" →
        get_active_window_title_osx true nsw ws =
          firstGoodTitle (get_active_app_name_osx nsw) ws) := by
  constructor
  · intro h
    simp [get_active_window_title_osx, h]
  · intro h
    simp [get_active_window_title_osx, h, scanWindows_eq_firstGoodTitle]

/-- Witness for C1 at a concrete window list: an empty-titled layer-0 window of
the focused app is skipped in favour of the next one. -/
theorem c1_window_title_algorithm_witness :
    get_active_window_title_osx true (some (Except.ok (some "TextEdit")))
      [⟨some "TextEdit", some 0, some ""⟩, ⟨some "TextEdit", some 0, some "Untitled"⟩] =
      firstGoodTitle (get_active_app_name_osx (some (Except.ok (some "TextEdit"))))
        [⟨some "TextEdit", some 0, some ""⟩, ⟨some "TextEdit", some 0, some "Untitled"⟩] :=
  (c1_window_title_algorithm _ _).2 (by decide)

/-- Claim C2: is_user_active_osx fails open — it returns true when the
subprocess capability is missing, when the ioreg call times out, exits
non-zero, or raises any other error, and when the output has no line
containing "HIDIdleTime". -/
theorem c2_idle_fail_open :
    (∀ r, is_user_active_osx false r = true)
    ∧ is_user_active_osx true CmdResult.timeout = true
    ∧ is_user_active_osx true CmdResult.calledProcessError = true
    ∧ is_user_active_osx true CmdResult.otherError = true
    ∧ (∀ output, firstHIDLine (splitlines output) = none →
        is_user_active_osx true (CmdResult.ok output) = true) := by
  refine ⟨fun r => rfl, rfl, rfl, rfl, fun o h => ?_⟩
  simp [is_user_active_osx, h]

/-- Witness for C2 at a concrete output with no HIDIdleTime field. -/
theorem c2_idle_fail_open_witness :
    is_user_active_osx true (CmdResult.ok "IOHIDSystem report with no idle field") = true :=
  c2_idle_fail_open.2.2.2.2 "IOHIDSystem report with no idle field" (by decide)

/-- Claim C3: on a successfully parsed integer idle duration in nanoseconds,
the verdict is idle_time / 1000000000 < 5 (strict), equivalently
idle_time < 5000000000: 2.0 seconds idle gives true, 6.0 seconds false, and
exactly 5.0 seconds false; is_user_active_osx applies exactly this verdict to
the parsed value. -/
theorem c3_idle_threshold :
    (∀ n : Int, idleVerdict n = true ↔ (n : ℚ) / 1000000000 < 5)
    ∧ (∀ n : Int, idleVerdict n = true ↔ n < 5000000000)
    ∧ idleVerdict 2000000000 = true
    ∧ idleVerdict 6000000000 = false
    ∧ idleVerdict 5000000000 = false
    ∧ (∀ output n, parsedIdle output = some n →
        is_user_active_osx true (CmdResult.ok output) = idleVerdict n) := by
  have key : ∀ n : Int, idleVerdict n = true ↔ (n : ℚ) / 1000000000 < 5 := fun n =>
    decide_eq_true_iff
  have key2 : ∀ n : Int, idleVerdict n = true ↔ n < 5000000000 := by
    intro n
    rw [key, div_lt_iff₀ (by norm_num : (0:ℚ) < 1000000000),
      show (5:ℚ) * 1000000000 = ((5000000000 : Int) : ℚ) by norm_num, Int.cast_lt]
  refine ⟨key, key2, ?_, ?_, ?_, ?_⟩
  · rw [key2]; norm_num
  · rw [Bool.eq_false_iff]
    intro hc
    have := (key2 6000000000).mp hc
    norm_num at this
  · rw [Bool.eq_false_iff]
    intro hc
    have := (key2 5000000000).mp hc
    norm_num at this
  · intro o n h
    simp only [parsedIdle] at h
    rcases Option.bind_eq_some.mp h with ⟨line, hl, hp⟩
    simp [is_user_active_osx, hl, hp]

/-- Witness for C3 at a concrete ioreg output reporting 2.0 seconds idle. -/
theorem c3_idle_threshold_witness :
    is_user_active_osx true (CmdResult.ok "  \"HIDIdleTime\" = 2000000000") =
      idleVerdict 2000000000 :=
  c3_idle_threshold.2.2.2.2.2 _ 2000000000 (by decide)

/-- Claim C4: on any platform identifier other than darwin, each of the three
dispatch operations raises NotImplementedError (its own message naming the
operation) and never returns a value. -/
theorem c4_unsupported_platform (p : String) (h : p ≠ "darwin") :
    (∀ s, get_active_app_name p s = DispatchResult.notImplemented
      ("Platform " ++ p ++ " not supported yet for get_active_app_name"))
    ∧ (∀ s, get_active_window_title p s = DispatchResult.notImplemented
      ("Platform " ++ p ++ " not supported yet for get_active_window_title"))
    ∧ (∀ b, is_user_active p b = DispatchResult.notImplemented
      ("Platform " ++ p ++ " not supported yet for is_user_active"))
    ∧ (∀ s r, get_active_app_name p s ≠ DispatchResult.ok r)
    ∧ (∀ s r, get_active_window_title p s ≠ DispatchResult.ok r)
    ∧ (∀ b r, is_user_active p b ≠ DispatchResult.ok r) := by
  refine ⟨fun s => ?_, fun s => ?_, fun b => ?_, fun s r => ?_, fun s r => ?_, fun b r => ?_⟩ <;>
    simp [get_active_app_name, get_active_window_title, is_user_active, h]

/-- Witness for C4 at the concrete platform identifier linux. -/
theorem c4_unsupported_platform_witness :
    get_active_app_name "linux" "" = DispatchResult.notImplemented
      ("Platform " ++ "linux" ++ " not supported yet for get_active_app_name") :=
  (c4_unsupported_platform "linux" (by decide)).1 ""

/-- Claim C5 counterexample: for an instant 1 second in the future the source
returns "23 hours ago" (timedelta normalisation gives days = -1,
seconds = 86399), not "0 seconds ago". -/
theorem c5_counterexample :
    (1000 : Int) < 1001
    ∧ human_readable_time 1000 1001 = some "23 hours ago"
    ∧ human_readable_time 1000 1001 ≠ some "0 seconds ago" :=
  ⟨by decide, by decide, by decide⟩

/-- Claim C5 (amended): for an instant strictly in the future, the days branch
is never taken (the normalised days field is negative), and the result is
selected by the non-negative remainder (now - ts) mod 86400: "0 seconds ago"
arises only when the future offset is an exact multiple of 86400 seconds. -/
theorem c5_future_instants (now ts : Int) (hf : fromtimestamp_ok ts = true)
    (h : now < ts) :
    human_readable_time now ts =
      some (if (now - ts) % 86400 < 60 then
          toString ((now - ts) % 86400) ++ " seconds ago"
        else if (now - ts) % 86400 < 3600 then
          toString ((now - ts) % 86400 / 60) ++ " minutes ago"
        else toString ((now - ts) % 86400 / 3600) ++ " hours ago") := by
  have hd : ¬ 0 < (now - ts) / 86400 := by omega
  simp [human_readable_time, hf, describe_diff, hd]

/-- Witness for the amended C5 at an instant 1 second in the future. -/
theorem c5_future_instants_witness :
    human_readable_time 1000 1001 =
      some (if ((1000 : Int) - 1001) % 86400 < 60 then
          toString (((1000 : Int) - 1001) % 86400) ++ " seconds ago"
        else if ((1000 : Int) - 1001) % 86400 < 3600 then
          toString (((1000 : Int) - 1001) % 86400 / 60) ++ " minutes ago"
        else toString (((1000 : Int) - 1001) % 86400 / 3600) ++ " hours ago") :=
  c5_future_instants 1000 1001 (by decide) (by decide)

/-- Claim C6: for past instants the result is "N days ago" with N the whole
elapsed days whenever at least one full day elapsed, else "N seconds ago"
under 60 seconds, "N minutes ago" (integer-divided) under 3600 seconds, and
"N hours ago" (integer-divided) otherwise. -/
theorem c6_relative_time (now ts : Int) (hf : fromtimestamp_ok ts = true)
    (h : ts ≤ now) :
    (86400 ≤ now - ts →
      human_readable_time now ts = some (toString ((now - ts) / 86400) ++ " days ago"))
    ∧ (now - ts < 60 →
      human_readable_time now ts = some (toString (now - ts) ++ " seconds ago"))
    ∧ (60 ≤ now - ts → now - ts < 3600 →
      human_readable_time now ts = some (toString ((now - ts) / 60) ++ " minutes ago"))
    ∧ (3600 ≤ now - ts → now - ts < 86400 →
      human_readable_time now ts = some (toString ((now - ts) / 3600) ++ " hours ago")) := by
  refine ⟨fun h1 => ?_, fun h1 => ?_, fun h1 h2 => ?_, fun h1 h2 => ?_⟩
  · have hd : 0 < (now - ts) / 86400 := by omega
    simp [human_readable_time, hf, describe_diff, hd]
  · have hd : ¬ 0 < (now - ts) / 86400 := by omega
    have hm : (now - ts) % 86400 = now - ts := by omega
    simp [human_readable_time, hf, describe_diff, hd, hm, h1]
  · have hd : ¬ 0 < (now - ts) / 86400 := by omega
    have hm : (now - ts) % 86400 = now - ts := by omega
    have hn : ¬ now - ts < 60 := by omega
    simp [human_readable_time, hf, describe_diff, hd, hm, hn, h2]
  · have hd : ¬ 0 < (now - ts) / 86400 := by omega
    have hm : (now - ts) % 86400 = now - ts := by omega
    have hn : ¬ now - ts < 60 := by omega
    have hn2 : ¬ now - ts < 3600 := by omega
    simp [human_readable_time, hf, describe_diff, hd, hm, hn, hn2]

/-- Witness for C6 at an instant 2 hours 30 minutes in the past. -/
theorem c6_relative_time_witness :
    human_readable_time 9000 0 = some (toString (((9000 : Int) - 0) / 3600) ++ " hours ago") :=
  (c6_relative_time 9000 0 (by decide) (by decide)).2.2.2 (by decide) (by decide)

/-- Claim C7 counterexample: human_readable_time is not total — at a timestamp
outside the convertible datetime range the uncaught fromtimestamp failure
propagates (modelled as none), while timestamp_to_human_readable catches the
same failure and returns the empty string. -/
theorem c7_counterexample :
    human_readable_time 0 4611686018427387904 = none
    ∧ timestamp_to_human_readable 4611686018427387904 = "" :=
  ⟨by decide, by decide⟩

/-- Claim C7 (amended): timestamp_to_human_readable is total — it formats the
timestamp when conversion succeeds and returns the empty string on conversion
failure — while human_readable_time returns a string exactly when the
timestamp converts and propagates the conversion failure otherwise. -/
theorem c7_totality (now ts : Int) :
    (fromtimestamp_ok ts = true →
      human_readable_time now ts = some (describe_diff (now - ts))
        ∧ timestamp_to_human_readable ts = strftime_ymd_hms ts)
    ∧ (fromtimestamp_ok ts = false →
      human_readable_time now ts = none ∧ timestamp_to_human_readable ts = "") := by
  constructor <;> intro h <;>
    simp [human_readable_time, timestamp_to_human_readable, h]

/-- Witness for the amended C7 at a timestamp below the convertible range. -/
theorem c7_totality_witness :
    human_readable_time 0 (-4611686018427387904) = none
    ∧ timestamp_to_human_readable (-4611686018427387904) = "" :=
  (c7_totality 0 (-4611686018427387904)).2 (by decide)

/-- Claim C8: a missing native capability never raises on the macOS variant —
with NSWorkspace absent the app name is "", with the Quartz bindings absent
the window title is "" for every lookup behaviour and window list, and with
subprocess absent the activity check is true for every command outcome. -/
theorem c8_missing_capability_sentinels :
    get_active_app_name_osx none = ""
    ∧ (∀ nsw ws, get_active_window_title_osx false nsw ws = "")
    ∧ (∀ r, is_user_active_osx false r = true) :=
  ⟨rfl, fun _ _ => rfl, fun _ => rfl⟩

/-- Claim C9: get_active_app_name_osx is total over every behaviour of the
native lookup — a raised exception is caught and "" returned, a record without
the name field yields "", and in every case the result is either "" or the
name carried by a successful lookup. -/
theorem c9_app_name_total :
    (∀ nsw, get_active_app_name_osx nsw = ""
      ∨ ∃ s, nsw = some (Except.ok (some s)) ∧ get_active_app_name_osx nsw = s)
    ∧ get_active_app_name_osx (some (Except.error ())) = ""
    ∧ get_active_app_name_osx (some (Except.ok none)) = "" := by
  refine ⟨fun nsw => ?_, rfl, rfl⟩
  rcases nsw with _ | x
  · exact Or.inl rfl
  · rcases x with e | r
    · exact Or.inl rfl
    · rcases r with _ | s
      · exact Or.inl rfl
      · exact Or.inr ⟨s, rfl, rfl⟩

/-- Claim C10: the verdict on a successful ioreg call depends only on the
first output line containing "HIDIdleTime" — two outputs sharing that first
matching line get the same verdict whatever their other lines hold. -/
theorem c10_first_line_determines (o1 o2 : String) (l : List Char)
    (h1 : firstHIDLine (splitlines o1) = some l)
    (h2 : firstHIDLine (splitlines o2) = some l) :
    is_user_active_osx true (CmdResult.ok o1) =
      is_user_active_osx true (CmdResult.ok o2) := by
  simp [is_user_active_osx, h1, h2]

/-- Witness for C10: a bare report line and the same line wrapped in unrelated
lines give the same verdict. -/
theorem c10_first_line_determines_witness :
    is_user_active_osx true (CmdResult.ok "\"HIDIdleTime\" = 7000000000") =
      is_user_active_osx true
        (CmdResult.ok "preamble\n\"HIDIdleTime\" = 7000000000\ntrailer") :=
  c10_first_line_determines _ _ ("\"HIDIdleTime\" = 7000000000".toList)
    (by decide) (by decide)
